import Mathlib

/-!
Shallow embedding of the trusted-proxy client-identity resolver from
`src/utils/request_utils.py` (functions `get_client_ip` and
`extract_ip_from_headers`), together with theorems settling the spec claims.

Modelling conventions:
* Python strings are Lean `String`s; the Python string primitives used by the
  source (`str.split(",")`, `str.strip()`, `bytes.lower()`-style key folding)
  are embedded as structurally recursive functions on the character list, so
  that concrete inputs evaluate by kernel reduction.
* The FastAPI/Starlette `Request` is embedded as the two fields the source
  reads: a raw header item list (whose `get` is case-insensitive,
  first-match, as in Starlette's `Headers.get`) and the optional
  transport-level peer host `request.client.host` (`none` when
  `request.client` is `None`).
* A plain Python `dict` of headers is embedded as an association list with
  exact-key (case-sensitive) first-match lookup, as `dict.get` behaves.
* Python truthiness of an optional string (`if forwarded_for:`) is `pyTruthy`:
  `None` and `""` are falsy.
* A fallible Python indexing expression (`ips[-(n+1)]`, `ips[0]`) is embedded
  in `Option`: `none` models an `IndexError`. Both resolver embeddings
  therefore return `Option String`, and totality (the code never raises) is a
  theorem, not an assumption.
* The process-wide `config.trusted_proxy_count` (read when the argument is
  `None`) is passed explicitly as a `Nat` argument, following the spec's
  immutable `TrustConfiguration`; the configuration layer rejects negative
  values at startup.
-/

namespace Aether

/-- Embedding of Python `s.split(sep)` for a one-character separator, on the
character list: every occurrence of the separator starts a new piece, empty
pieces are kept, and the empty string yields one empty piece (`"".split(",")
== [""]`). -/
def splitOnChar (sep : Char) : List Char → List (List Char)
  | [] => [[]]
  | c :: rest =>
    match splitOnChar sep rest with
    | [] => if c = sep then [[], []] else [[c]]
    | piece :: pieces =>
      if c = sep then [] :: piece :: pieces else (c :: piece) :: pieces

/-- Embedding of Python `s.strip()`: remove leading and trailing whitespace
characters. -/
def pyStrip (s : String) : String :=
  String.mk (((s.data.dropWhile Char.isWhitespace).reverse.dropWhile
      Char.isWhitespace).reverse)

/-- Embedding of the ASCII case folding applied to header keys
(Starlette lowercases header names before comparison). -/
def lowerStr (s : String) : String :=
  String.mk (s.data.map Char.toLower)

/-- Embedding of the chain-parsing expression shared by both resolver
functions: `[ip.strip() for ip in forwarded_for.split(",") if ip.strip()]` —
split on commas, strip each piece, keep only pieces that are non-empty after
stripping, preserving order. -/
def parseChain (s : String) : List String :=
  (((splitOnChar ',' s.data).map (fun cs => pyStrip (String.mk cs))).filter
    (fun t => t ≠ ""))

/-- Embedding of Python truthiness for an optional string
(`None` and `""` are falsy). -/
def pyTruthy : Option String → Bool
  | none => false
  | some s => s ≠ ""

/-- Embedding of the Python negative indexing `l[-k]` (for `k ≥ 1`):
`none` models an `IndexError`. -/
def pyNegGet (l : List String) (k : Nat) : Option String :=
  if 1 ≤ k ∧ k ≤ l.length then l[l.length - k]? else none

/-- Embedding of the Starlette `Request` fields read by `get_client_ip`:
the raw header items and the optional `request.client.host`. -/
structure Request where
  headers : List (String × String)
  client : Option String

/-- Embedding of Starlette `Headers.get(key)`: case-insensitive,
first matching item wins, `None` when absent. -/
def headersLookup (hs : List (String × String)) (key : String) : Option String :=
  (hs.find? (fun p => lowerStr p.fst = lowerStr key)).map Prod.snd

/-- Embedding of Python `dict.get(key)` on the header dict of
`extract_ip_from_headers`: exact (case-sensitive) key match. -/
def dictLookup (hs : List (String × String)) (key : String) : Option String :=
  (hs.find? (fun p => p.fst = key)).map Prod.snd

/-- Embedding of the pattern
`if request.client and request.client.host: return request.client.host`
followed by the `"unknown"` fallback, used twice in `get_client_ip`:
an absent client or an empty host yields the sentinel. -/
def clientFallback (req : Request) : String :=
  match req.client with
  | some host => if host = "" then "unknown" else host
  | none => "unknown"

/-- Embedding of `get_client_ip` from `src/utils/request_utils.py`, with the
process trust depth `config.trusted_proxy_count` passed explicitly.
`none` would model an uncaught `IndexError`. -/
def get_client_ip (trusted_proxy_count : Nat) (req : Request) : Option String :=
  if trusted_proxy_count = 0 then
    some (clientFallback req)
  else
    let forwarded_for := headersLookup req.headers "X-Forwarded-For"
    let ips :=
      if pyTruthy forwarded_for then parseChain (forwarded_for.getD "") else []
    if trusted_proxy_count < ips.length then
      pyNegGet ips (trusted_proxy_count + 1)
    else if ips ≠ [] then
      ips[0]?
    else
      let real_ip := headersLookup req.headers "X-Real-IP"
      if pyTruthy real_ip then some (pyStrip (real_ip.getD ""))
      else some (clientFallback req)

/-- Embedding of `extract_ip_from_headers` from
`src/utils/request_utils.py`, with the trust depth resolved (the Python
`None` default reads the same process configuration value) passed
explicitly. `none` would model an uncaught `IndexError`. -/
def extract_ip_from_headers (headers : List (String × String))
    (trusted_proxy_count : Nat) : Option String :=
  if trusted_proxy_count = 0 then
    some "unknown"
  else
    let forwarded_for := (dictLookup headers "x-forwarded-for").getD ""
    let ips := if forwarded_for ≠ "" then parseChain forwarded_for else []
    if trusted_proxy_count < ips.length then
      pyNegGet ips (trusted_proxy_count + 1)
    else if ips ≠ [] then
      ips[0]?
    else
      let real_ip := (dictLookup headers "x-real-ip").getD ""
      if real_ip ≠ "" then some (pyStrip real_ip)
      else some "unknown"

/-! ### Helper lemmas shared by the claim theorems -/

lemma parseChain_empty : parseChain "" = [] := by decide

lemma ne_empty_of_parseChain_ne {s : String} (h : parseChain s ≠ []) :
    s ≠ "" := by
  intro hs
  subst hs
  exact h parseChain_empty

lemma pyTruthy_some {s : String} (h : s ≠ "") : pyTruthy (some s) = true := by
  simp [pyTruthy, h]

/-- With a non-zero trust depth and a usable forwarding-chain header, the
request-object resolver is exactly the trust-depth selector on the parsed
chain. -/
lemma get_client_ip_xff (n : Nat) (hn : n ≠ 0) (req : Request) (s : String)
    (hff : headersLookup req.headers "X-Forwarded-For" = some s)
    (hne : parseChain s ≠ []) :
    get_client_ip n req =
      if n < (parseChain s).length then pyNegGet (parseChain s) (n + 1)
      else (parseChain s)[0]? := by
  have hs : s ≠ "" := ne_empty_of_parseChain_ne hne
  simp only [get_client_ip, if_neg hn, hff, pyTruthy_some hs, if_pos trivial,
    Option.getD_some]
  split
  · rfl
  · rfl

/-- With a non-zero trust depth and a usable forwarding-chain header, the
header-only resolver is exactly the trust-depth selector on the parsed
chain. -/
lemma extract_xff (n : Nat) (hn : n ≠ 0) (hs : List (String × String))
    (s : String) (hff : dictLookup hs "x-forwarded-for" = some s)
    (hne : parseChain s ≠ []) :
    extract_ip_from_headers hs n =
      if n < (parseChain s).length then pyNegGet (parseChain s) (n + 1)
      else (parseChain s)[0]? := by
  have hsne : s ≠ "" := ne_empty_of_parseChain_ne hne
  simp only [extract_ip_from_headers, if_neg hn, hff, Option.getD_some,
    if_pos hsne]
  split
  · rfl
  · rfl

/-- With a non-zero trust depth and no usable forwarding chain, the
request-object resolver falls through to the secondary header and then the
transport fallback. -/
lemma get_client_ip_no_chain (n : Nat) (hn : n ≠ 0) (req : Request)
    (hchain : parseChain ((headersLookup req.headers "X-Forwarded-For").getD "")
      = []) :
    get_client_ip n req =
      if pyTruthy (headersLookup req.headers "X-Real-IP") then
        some (pyStrip ((headersLookup req.headers "X-Real-IP").getD ""))
      else some (clientFallback req) := by
  simp only [get_client_ip, if_neg hn]
  cases h : pyTruthy (headersLookup req.headers "X-Forwarded-For") <;>
    simp [h, hchain]

/-- With a non-zero trust depth and no usable forwarding chain, the
header-only resolver falls through to the secondary header and then the
sentinel. -/
lemma extract_no_chain (n : Nat) (hn : n ≠ 0) (hs : List (String × String))
    (hchain : parseChain ((dictLookup hs "x-forwarded-for").getD "") = []) :
    extract_ip_from_headers hs n =
      if ((dictLookup hs "x-real-ip").getD "") ≠ "" then
        some (pyStrip ((dictLookup hs "x-real-ip").getD ""))
      else some "unknown" := by
  simp only [extract_ip_from_headers, if_neg hn]
  by_cases h : ((dictLookup hs "x-forwarded-for").getD "") = "" <;>
    simp [h, hchain]

lemma pyNegGet_eq (l : List String) (k : Nat) (h1 : 1 ≤ k)
    (h2 : k ≤ l.length) : pyNegGet l k = l[l.length - k]? :=
  if_pos ⟨h1, h2⟩

lemma pyNegGet_isSome (l : List String) (k : Nat) (h1 : 1 ≤ k)
    (h2 : k ≤ l.length) : (pyNegGet l k).isSome := by
  rw [pyNegGet_eq l k h1 h2]
  have hlt : l.length - k < l.length := Nat.sub_lt (lt_of_lt_of_le h1 h2) h1
  simp [List.getElem?_eq_getElem hlt]

/-- The trust-depth selection followed by the secondary fallback always
produces a string when the final fallback does. -/
lemma select_isSome (n : Nat) (ips : List String) (k : Option String)
    (hk : k.isSome) :
    (if n < ips.length then pyNegGet ips (n + 1)
     else if ips ≠ [] then ips[0]? else k).isSome := by
  split
  next hlt => exact pyNegGet_isSome _ _ (Nat.succ_le_succ (Nat.zero_le n)) hlt
  split
  next hne =>
    rw [List.getElem?_eq_getElem (List.length_pos.mpr hne)]
    rfl
  exact hk

/-! ### Claim theorems -/

/-- C1: with trust depth 0, `get_client_ip` returns the transport-level peer
address when present (and non-empty), otherwise the sentinel "unknown", and
its output depends only on the transport-level peer address — two requests
with the same peer address but arbitrarily different headers (including
adversarial X-Forwarded-For or X-Real-IP values) resolve identically. -/
theorem C1_zero_trust_invariant (r₁ r₂ : Request) (h : r₁.client = r₂.client) :
    get_client_ip 0 r₁ = get_client_ip 0 r₂
    ∧ (∀ host, r₁.client = some host → host ≠ "" →
        get_client_ip 0 r₁ = some host)
    ∧ (r₁.client = none → get_client_ip 0 r₁ = some "unknown") := by
  have e : ∀ r : Request, get_client_ip 0 r = some (clientFallback r) := by
    intro r
    simp [get_client_ip]
  refine ⟨?_, ?_, ?_⟩
  · rw [e, e]
    simp [clientFallback, h]
  · intro host hc hne
    rw [e]
    simp [clientFallback, hc, hne]
  · intro hc
    rw [e]
    simp [clientFallback, hc]

/-- Witness for C1 at a concrete request pair: same peer, different
adversarial headers. -/
theorem C1_zero_trust_invariant_witness :
    get_client_ip 0 ⟨[("X-Forwarded-For", "6.6.6.6, 7.7.7.7")],
        some "203.0.113.5"⟩
      = get_client_ip 0 ⟨[("X-Real-IP", "8.8.8.8")], some "203.0.113.5"⟩
    ∧ get_client_ip 0 ⟨[("X-Forwarded-For", "6.6.6.6, 7.7.7.7")],
        some "203.0.113.5"⟩
      = some "203.0.113.5" :=
  ⟨(C1_zero_trust_invariant ⟨[("X-Forwarded-For", "6.6.6.6, 7.7.7.7")],
      some "203.0.113.5"⟩ ⟨[("X-Real-IP", "8.8.8.8")], some "203.0.113.5"⟩
      rfl).1,
   (C1_zero_trust_invariant ⟨[("X-Forwarded-For", "6.6.6.6, 7.7.7.7")],
      some "203.0.113.5"⟩ ⟨[("X-Real-IP", "8.8.8.8")], some "203.0.113.5"⟩
      rfl).2.1 "203.0.113.5" rfl (by decide)⟩

/-- C4: the header-only variant with trust depth 0 always returns the
sentinel "unknown" for every header mapping, even though `get_client_ip`
with the same headers and a present peer address returns that peer
address. -/
theorem C4_header_only_zero_depth (hs : List (String × String)) :
    extract_ip_from_headers hs 0 = some "unknown"
    ∧ ∀ host : String, host ≠ "" →
        get_client_ip 0 ⟨hs, some host⟩ = some host := by
  refine ⟨rfl, ?_⟩
  intro host hne
  simp [get_client_ip, clientFallback, hne]

/-- Witness for C4 at a concrete header mapping and peer address. -/
theorem C4_header_only_zero_depth_witness :
    extract_ip_from_headers [("x-forwarded-for", "1.2.3.4")] 0
      = some "unknown"
    ∧ get_client_ip 0 ⟨[("x-forwarded-for", "1.2.3.4")], some "203.0.113.5"⟩
      = some "203.0.113.5" :=
  ⟨(C4_header_only_zero_depth [("x-forwarded-for", "1.2.3.4")]).1,
   (C4_header_only_zero_depth [("x-forwarded-for", "1.2.3.4")]).2
     "203.0.113.5" (by decide)⟩

/-- C7: the chain parser splits on commas, trims each piece, discards pieces
empty after trimming, and preserves the order of the survivors: every
parsed entry is non-empty, the parsed chain is an order-preserving
subsequence of the trimmed split pieces, every parsed entry is the trim of
some split piece, the empty and all-whitespace headers parse to the empty
chain, and "1.2.3.4, , 10.0.0.1" parses to exactly
["1.2.3.4", "10.0.0.1"]. -/
theorem C7_whitespace_filtering (s : String) :
    (∀ t ∈ parseChain s, t ≠ "")
    ∧ (parseChain s).Sublist
        ((splitOnChar ',' s.data).map (fun cs => pyStrip (String.mk cs)))
    ∧ (∀ t ∈ parseChain s, ∃ cs ∈ splitOnChar ',' s.data,
        t = pyStrip (String.mk cs))
    ∧ parseChain "" = []
    ∧ parseChain " \t " = []
    ∧ parseChain "1.2.3.4, , 10.0.0.1" = ["1.2.3.4", "10.0.0.1"] := by
  refine ⟨?_, ?_, ?_, by decide, by decide, by decide⟩
  · intro t ht
    simpa using (List.mem_filter.mp ht).2
  · exact List.filter_sublist _
  · intro t ht
    obtain ⟨cs, hcs, rfl⟩ := List.mem_map.mp (List.mem_of_mem_filter ht)
    exact ⟨cs, hcs, rfl⟩

/-- Witness for C7 at the spec's concrete example, discharging the
membership hypotheses at the entry "1.2.3.4". -/
theorem C7_whitespace_filtering_witness :
    ("1.2.3.4" : String) ≠ ""
    ∧ parseChain "1.2.3.4, , 10.0.0.1" = ["1.2.3.4", "10.0.0.1"] :=
  ⟨(C7_whitespace_filtering "1.2.3.4, , 10.0.0.1").1 "1.2.3.4" (by decide),
   (C7_whitespace_filtering "1.2.3.4, , 10.0.0.1").2.2.2.2.2⟩

/-- C8: both resolvers are total — for every trust depth, request, and
header mapping they return an actual string (`isSome`, i.e. no branch
raises): the guarded negative index is always in range and every other
branch produces a string, at worst the sentinel. -/
theorem C8_totality (n : Nat) (req : Request) (hs : List (String × String)) :
    (get_client_ip n req).isSome ∧ (extract_ip_from_headers hs n).isSome := by
  constructor
  · by_cases hn : n = 0
    · simp [get_client_ip, hn]
    · simp only [get_client_ip, if_neg hn]
      exact select_isSome n _ _ (by split <;> rfl)
  · by_cases hn : n = 0
    · simp [extract_ip_from_headers, hn]
    · simp only [extract_ip_from_headers, if_neg hn]
      exact select_isSome n _ _ (by split <;> rfl)

/-- C2: for trust depth N > 0 and an X-Forwarded-For header parsing to a
chain of length M > N, both resolvers return chain[M − N − 1] — the entry N
positions in from the innermost end, 0-indexed from the outermost — and
that index is in range. -/
theorem C2_chain_indexing (n : Nat) (hn : 0 < n) (req : Request) (s : String)
    (hff : headersLookup req.headers "X-Forwarded-For" = some s)
    (hM : n < (parseChain s).length) :
    get_client_ip n req = (parseChain s)[(parseChain s).length - n - 1]?
    ∧ ((parseChain s)[(parseChain s).length - n - 1]?).isSome
    ∧ (∀ hs, dictLookup hs "x-forwarded-for" = some s →
        extract_ip_from_headers hs n
          = (parseChain s)[(parseChain s).length - n - 1]?) := by
  have hn' : n ≠ 0 := Nat.pos_iff_ne_zero.mp hn
  have hne : parseChain s ≠ [] := by
    intro h
    rw [h] at hM
    exact Nat.not_lt_zero n hM
  have hidx : (parseChain s).length - n - 1 = (parseChain s).length - (n + 1) := by
    omega
  have hsel : (if n < (parseChain s).length then pyNegGet (parseChain s) (n + 1)
      else (parseChain s)[0]?)
      = (parseChain s)[(parseChain s).length - n - 1]? := by
    rw [if_pos hM, pyNegGet_eq _ _ (Nat.succ_le_succ (Nat.zero_le n)) hM, hidx]
  refine ⟨?_, ?_, ?_⟩
  · rw [get_client_ip_xff n hn' req s hff hne, hsel]
  · rw [List.getElem?_eq_getElem (show (parseChain s).length - n - 1
      < (parseChain s).length by omega)]
    rfl
  · intro hs hd
    rw [extract_xff n hn' hs s hd hne, hsel]

/-- Witness for C2 at the spec's concrete scenario: trust depth 1,
chain "1.2.3.4, 10.0.0.1, 10.0.0.2" of length 3 → entry at index 1. -/
theorem C2_chain_indexing_witness :
    get_client_ip 1 ⟨[("X-Forwarded-For", "1.2.3.4, 10.0.0.1, 10.0.0.2")],
        none⟩ = some "10.0.0.1"
    ∧ extract_ip_from_headers
        [("x-forwarded-for", "1.2.3.4, 10.0.0.1, 10.0.0.2")] 1
        = some "10.0.0.1" := by
  have h := C2_chain_indexing 1 (by decide)
      ⟨[("X-Forwarded-For", "1.2.3.4, 10.0.0.1, 10.0.0.2")], none⟩
      "1.2.3.4, 10.0.0.1, 10.0.0.2" (by decide) (by decide)
  exact ⟨h.1.trans (by decide),
    (h.2.2 [("x-forwarded-for", "1.2.3.4, 10.0.0.1, 10.0.0.2")]
      (by decide)).trans (by decide)⟩

/-- C5: for trust depth N > 0 and an X-Forwarded-For header parsing to a
chain of length M with 1 ≤ M ≤ N, both resolvers fall back to the outermost
(leftmost) entry chain[0]. -/
theorem C5_short_chain_fallback (n : Nat) (hn : 0 < n) (req : Request)
    (s : String)
    (hff : headersLookup req.headers "X-Forwarded-For" = some s)
    (h1 : 1 ≤ (parseChain s).length) (h2 : (parseChain s).length ≤ n) :
    get_client_ip n req = (parseChain s)[0]?
    ∧ ((parseChain s)[0]?).isSome
    ∧ (∀ hs, dictLookup hs "x-forwarded-for" = some s →
        extract_ip_from_headers hs n = (parseChain s)[0]?) := by
  have hn' : n ≠ 0 := Nat.pos_iff_ne_zero.mp hn
  have hne : parseChain s ≠ [] := List.length_pos.mp (by omega)
  have hnot : ¬ n < (parseChain s).length := by omega
  refine ⟨?_, ?_, ?_⟩
  · rw [get_client_ip_xff n hn' req s hff hne, if_neg hnot]
  · rw [List.getElem?_eq_getElem (by omega)]
    rfl
  · intro hs hd
    rw [extract_xff n hn' hs s hd hne, if_neg hnot]

/-- Witness for C5 at the spec's concrete scenario: trust depth 2,
chain "1.2.3.4" of length 1 → fallback to the outermost entry. -/
theorem C5_short_chain_fallback_witness :
    get_client_ip 2 ⟨[("X-Forwarded-For", "1.2.3.4")], none⟩
      = some "1.2.3.4"
    ∧ extract_ip_from_headers [("x-forwarded-for", "1.2.3.4")] 2
      = some "1.2.3.4" := by
  have h := C5_short_chain_fallback 2 (by decide)
      ⟨[("X-Forwarded-For", "1.2.3.4")], none⟩ "1.2.3.4"
      (by decide) (by decide) (by decide)
  exact ⟨h.1.trans (by decide),
    (h.2.2 [("x-forwarded-for", "1.2.3.4")] (by decide)).trans (by decide)⟩

/-- C10: whenever trust depth is positive and the X-Forwarded-For header
parses to a non-empty chain, the value each resolver returns is an element
of that parsed chain — a trimmed comma-separated token of the header, never
a synthesized or out-of-chain value. -/
theorem C10_result_in_chain (n : Nat) (hn : 0 < n) (req : Request)
    (s : String)
    (hff : headersLookup req.headers "X-Forwarded-For" = some s)
    (hne : parseChain s ≠ []) :
    (∃ x, get_client_ip n req = some x ∧ x ∈ parseChain s)
    ∧ (∀ hs, dictLookup hs "x-forwarded-for" = some s →
        ∃ x, extract_ip_from_headers hs n = some x ∧ x ∈ parseChain s) := by
  have hn' : n ≠ 0 := Nat.pos_iff_ne_zero.mp hn
  have hsel : ∃ x, (if n < (parseChain s).length
      then pyNegGet (parseChain s) (n + 1) else (parseChain s)[0]?)
      = some x ∧ x ∈ parseChain s := by
    split
    next hlt =>
      rw [pyNegGet_eq _ _ (Nat.succ_le_succ (Nat.zero_le n)) hlt]
      have hidx : (parseChain s).length - (n + 1) < (parseChain s).length := by
        omega
      exact ⟨_, List.getElem?_eq_getElem hidx, List.getElem_mem hidx⟩
    next =>
      have h0 : 0 < (parseChain s).length := List.length_pos.mpr hne
      exact ⟨_, List.getElem?_eq_getElem h0, List.getElem_mem h0⟩
  constructor
  · rw [get_client_ip_xff n hn' req s hff hne]
    exact hsel
  · intro hs hd
    rw [extract_xff n hn' hs s hd hne]
    exact hsel

/-- Witness for C10 at a concrete adversarial chain: the result is one of
the parsed entries. -/
theorem C10_result_in_chain_witness :
    ∃ x, get_client_ip 1 ⟨[("X-Forwarded-For", "spoofed, 10.0.0.1")], none⟩
      = some x ∧ x ∈ parseChain "spoofed, 10.0.0.1" :=
  (C10_result_in_chain 1 (by decide)
    ⟨[("X-Forwarded-For", "spoofed, 10.0.0.1")], none⟩ "spoofed, 10.0.0.1"
    (by decide) (by decide)).1

/-- C3 counterexample: with trust depth 1, no X-Forwarded-For, an X-Real-IP
consisting of a single space, and peer address "9.9.9.9", `get_client_ip`
returns the empty string — it does not fall through to the peer address —
and the header-only variant likewise returns the empty string, not the
sentinel: the whitespace-only X-Real-IP is truthy before trimming, so both
resolvers return its (empty) trimmed value. -/
theorem C3_counterexample :
    get_client_ip 1 ⟨[("X-Real-IP", " ")], some "9.9.9.9"⟩ = some ""
    ∧ extract_ip_from_headers [("x-real-ip", " ")] 1 = some ""
    ∧ (some "" : Option String) ≠ some "9.9.9.9"
    ∧ (some "" : Option String) ≠ some "unknown" := by
  refine ⟨by decide, by decide, by decide, by decide⟩

/-- C3 (amended): for trust depth N > 0 with no usable forwarding chain,
the resolvers return the trimmed X-Real-IP whenever X-Real-IP is present
and non-empty BEFORE trimming — including the whitespace-only case, where
the returned value is the empty string rather than a fall-through — and
fall through to the transport-level peer address (or the sentinel in the
header-only variant) only when X-Real-IP is absent or the empty string. -/
theorem C3_real_ip_fallback (n : Nat) (hn : 0 < n) (req : Request)
    (hchain : parseChain
      ((headersLookup req.headers "X-Forwarded-For").getD "") = []) :
    (∀ s, headersLookup req.headers "X-Real-IP" = some s → s ≠ "" →
        get_client_ip n req = some (pyStrip s))
    ∧ ((headersLookup req.headers "X-Real-IP" = none ∨
        headersLookup req.headers "X-Real-IP" = some "") →
        get_client_ip n req = some (clientFallback req))
    ∧ (∀ hs, parseChain ((dictLookup hs "x-forwarded-for").getD "") = [] →
        (∀ s, dictLookup hs "x-real-ip" = some s → s ≠ "" →
            extract_ip_from_headers hs n = some (pyStrip s))
        ∧ ((dictLookup hs "x-real-ip" = none ∨
            dictLookup hs "x-real-ip" = some "") →
            extract_ip_from_headers hs n = some "unknown")) := by
  have hn' : n ≠ 0 := Nat.pos_iff_ne_zero.mp hn
  refine ⟨?_, ?_, ?_⟩
  · intro s hreal hne
    rw [get_client_ip_no_chain n hn' req hchain, hreal]
    simp [pyTruthy_some hne]
  · intro hreal
    rw [get_client_ip_no_chain n hn' req hchain]
    rcases hreal with h | h <;> simp [h, pyTruthy]
  · intro hs hchain'
    constructor
    · intro s hreal hne
      rw [extract_no_chain n hn' hs hchain', hreal]
      simp [hne]
    · intro hreal
      rw [extract_no_chain n hn' hs hchain']
      rcases hreal with h | h <;> simp [h]

/-- Witness for C3 (amended) at concrete inputs: trust depth 2, X-Real-IP
"  9.9.9.9  " returns the trimmed "9.9.9.9"; absent X-Real-IP falls back to
the peer address. -/
theorem C3_real_ip_fallback_witness :
    get_client_ip 2 ⟨[("X-Real-IP", "  9.9.9.9  ")], none⟩ = some "9.9.9.9"
    ∧ get_client_ip 2 ⟨[], some "198.51.100.7"⟩ = some "198.51.100.7"
    ∧ extract_ip_from_headers [("x-real-ip", "  9.9.9.9  ")] 2
      = some "9.9.9.9" := by
  have h1 := (C3_real_ip_fallback 2 (by decide)
      ⟨[("X-Real-IP", "  9.9.9.9  ")], none⟩ (by decide)).1
      "  9.9.9.9  " (by decide) (by decide)
  have h2 := (C3_real_ip_fallback 2 (by decide)
      ⟨[], some "198.51.100.7"⟩ (by decide)).2.1 (Or.inl (by decide))
  have h3 := ((C3_real_ip_fallback 2 (by decide)
      ⟨[], none⟩ (by decide)).2.2 [("x-real-ip", "  9.9.9.9  ")]
      (by decide)).1 "  9.9.9.9  " (by decide) (by decide)
  exact ⟨h1.trans (by decide), h2.trans (by decide), h3.trans (by decide)⟩

/-- C6: with trust depth N > 0, when X-Forwarded-For is present and parses
to a non-empty chain, the result of `get_client_ip` is a function of the
trust depth and that header value alone — two requests agreeing on it
resolve identically whatever their X-Real-IP headers and peer addresses —
and when no usable forwarding chain exists but X-Real-IP is present and
usable (non-empty after trimming), the result is the trimmed X-Real-IP, not
the transport-level peer address. -/
theorem C6_fallback_ordering (n : Nat) (hn : 0 < n) :
    (∀ r₁ r₂ : Request, ∀ s : String,
        headersLookup r₁.headers "X-Forwarded-For" = some s →
        headersLookup r₂.headers "X-Forwarded-For" = some s →
        parseChain s ≠ [] →
        get_client_ip n r₁ = get_client_ip n r₂)
    ∧ (∀ (r : Request) (s : String),
        parseChain ((headersLookup r.headers "X-Forwarded-For").getD "") = [] →
        headersLookup r.headers "X-Real-IP" = some s →
        pyStrip s ≠ "" →
        get_client_ip n r = some (pyStrip s)) := by
  have hn' : n ≠ 0 := Nat.pos_iff_ne_zero.mp hn
  constructor
  · intro r₁ r₂ s h1 h2 hne
    rw [get_client_ip_xff n hn' r₁ s h1 hne,
      get_client_ip_xff n hn' r₂ s h2 hne]
  · intro r s hchain hreal hstrip
    have hs : s ≠ "" := by
      intro h
      apply hstrip
      rw [h]
      decide
    rw [get_client_ip_no_chain n hn' r hchain, hreal]
    simp [pyTruthy_some hs]

/-- Witness for C6: two requests sharing the X-Forwarded-For value but with
different X-Real-IP headers and peer addresses resolve identically, and a
usable X-Real-IP beats a present peer address. -/
theorem C6_fallback_ordering_witness :
    get_client_ip 1 ⟨[("X-Forwarded-For", "1.2.3.4, 10.0.0.1"),
        ("X-Real-IP", "8.8.8.8")], some "5.5.5.5"⟩
      = get_client_ip 1 ⟨[("X-Forwarded-For", "1.2.3.4, 10.0.0.1")], none⟩
    ∧ get_client_ip 1 ⟨[("X-Real-IP", "9.9.9.9")], some "5.5.5.5"⟩
      = some "9.9.9.9" := by
  have h1 := (C6_fallback_ordering 1 (by decide)).1
      ⟨[("X-Forwarded-For", "1.2.3.4, 10.0.0.1"), ("X-Real-IP", "8.8.8.8")],
        some "5.5.5.5"⟩
      ⟨[("X-Forwarded-For", "1.2.3.4, 10.0.0.1")], none⟩
      "1.2.3.4, 10.0.0.1" (by decide) (by decide) (by decide)
  have h2 := (C6_fallback_ordering 1 (by decide)).2
      ⟨[("X-Real-IP", "9.9.9.9")], some "5.5.5.5"⟩ "9.9.9.9"
      (by decide) (by decide) (by decide)
  exact ⟨h1, h2.trans (by decide)⟩

/-- C9: the header-only variant reads its mapping only under the exact
lowercase keys "x-forwarded-for" and "x-real-ip": with a positive trust
depth, any mapping whose keys all differ from those two exact strings —
e.g. one using the capitalization "X-Forwarded-For"/"X-Real-IP" — yields
the sentinel "unknown", while `get_client_ip` on a request carrying the
capitalized header does find it (its lookup is case-insensitive). -/
theorem C9_case_sensitive_lookup (n : Nat) (hn : 0 < n)
    (hs : List (String × String))
    (hkeys : ∀ p ∈ hs, p.1 ≠ "x-forwarded-for" ∧ p.1 ≠ "x-real-ip") :
    extract_ip_from_headers hs n = some "unknown"
    ∧ extract_ip_from_headers
        [("X-Forwarded-For", "1.2.3.4"), ("X-Real-IP", "5.6.7.8")] n
      = some "unknown"
    ∧ get_client_ip n ⟨[("X-Forwarded-For", "1.2.3.4")], none⟩
      = some "1.2.3.4" := by
  have hn' : n ≠ 0 := Nat.pos_iff_ne_zero.mp hn
  have general : ∀ hs' : List (String × String),
      (∀ p ∈ hs', p.1 ≠ "x-forwarded-for" ∧ p.1 ≠ "x-real-ip") →
      extract_ip_from_headers hs' n = some "unknown" := by
    intro hs' hk
    have hff : dictLookup hs' "x-forwarded-for" = none := by
      unfold dictLookup
      rw [List.find?_eq_none.mpr]
      · rfl
      · intro p hp
        simpa using (hk p hp).1
    have hri : dictLookup hs' "x-real-ip" = none := by
      unfold dictLookup
      rw [List.find?_eq_none.mpr]
      · rfl
      · intro p hp
        simpa using (hk p hp).2
    rw [extract_no_chain n hn' hs' (by rw [hff]; exact parseChain_empty)]
    simp [hri]
  refine ⟨general hs hkeys, general _ (by decide), ?_⟩
  have hff : headersLookup [("X-Forwarded-For", "1.2.3.4")] "X-Forwarded-For"
      = some "1.2.3.4" := by decide
  rw [get_client_ip_xff n hn' _ "1.2.3.4" hff (by decide)]
  have hlen : (parseChain "1.2.3.4").length = 1 := by decide
  rw [if_neg (by omega)]
  decide

/-- Witness for C9: a capitalized mapping yields the sentinel in the
header-only variant while the request-object variant resolves it. -/
theorem C9_case_sensitive_lookup_witness :
    extract_ip_from_headers
        [("X-Forwarded-For", "1.2.3.4"), ("X-Real-IP", "5.6.7.8")] 1
      = some "unknown"
    ∧ get_client_ip 1 ⟨[("X-Forwarded-For", "1.2.3.4")], none⟩
      = some "1.2.3.4" :=
  ⟨(C9_case_sensitive_lookup 1 (by decide) [] (by decide)).2.1,
   (C9_case_sensitive_lookup 1 (by decide) [] (by decide)).2.2⟩

end Aether

